import Mathlib

/-!
Shallow embedding of `src/tiktok_crawler/entities.py`.

The Python module defines dataclasses `Author`, `Tag`, `Caption`, `Music`,
`Media`, `Metrics` and the composite `Tiktok` record.  Each dataclass stores
raw strings plus a Selenium `WebElement` handle; `__post_init__` strips the
string fields, custom `__eq__` methods compare selected fields by duck-typed
attribute access, `to_dict` serializes to a plain mapping (replacing the
handle by its `innerHTML` snapshot), and `Tiktok.save` writes a JSON sidecar
and downloads the media file.

Modelling conventions:
  * `WebElement` is an opaque handle carrying its rendered `innerHTML`; a
    Python attribute that may be `None` is an `Option`.
  * Python `str.strip()` is `pyStrip`.
  * Fallible Python operations (attribute access on `None`, network fetch)
    return `Except PyErr`.
  * Duck typing in the `__eq__` methods is modelled by `PyAttrs`, the record
    of all attribute names any of the custom `__eq__` methods access; each
    entity exposes exactly the attributes its dataclass declares.
  * Wall-clock time is abstract (`Nat`); `isoformat t` renders it.  The
    default for `Metrics.as_of` is the value computed once when the class
    statement executes (module import), captured in `MetricsClass`.
-/

namespace TiktokCrawler

/-- A live Selenium `WebElement`.  `innerHTML` is what
`element.get_attribute("innerHTML")` returns for a live handle. -/
structure WebElement where
  innerHTML : String
deriving Repr, DecidableEq

/-- Python exceptions that the modelled operations can raise. -/
inductive PyErr where
  /-- `AttributeError`, e.g. `NoneType` has no attribute. -/
  | attributeError
  /-- an error raised by `requests.get` (connection error and the like). -/
  | networkError
deriving Repr, DecidableEq

/-- Python `str.strip()` with no argument: remove leading and trailing
whitespace.  Implemented by structural recursion over the character list so
concrete instances evaluate; whitespace is the ASCII set (space, tab, CR,
LF), the fragment of Python's whitespace set the claims exercise. -/
def pyStrip (s : String) : String :=
  ⟨((s.data.dropWhile Char.isWhitespace).reverse.dropWhile
      Char.isWhitespace).reverse⟩

/-- `x.get_attribute("innerHTML")` where `x` may be `None`:
on `None` this raises `AttributeError`. -/
def getInnerHTML : Option WebElement → Except PyErr String
  | none => .error .attributeError
  | some w => .ok w.innerHTML

/-- A JSON-like value as produced by `to_dict`.  The `handle` constructor
represents a live `WebElement` leaking into the mapping; the serialization
claims assert it never occurs in any `to_dict` output. -/
inductive Val where
  | null
  | str (s : String)
  | arr (items : List Val)
  | obj (fields : List (String × Val))
  | handle (w : WebElement)
deriving Repr

/-- The keys of an object value (empty for non-objects). -/
def Val.objKeys : Val → List String
  | .obj fields => fields.map Prod.fst
  | _ => []

mutual

/-- `true` iff the value contains no live handle anywhere. -/
def Val.noHandle : Val → Bool
  | .null => true
  | .str _ => true
  | .arr items => noHandleList items
  | .obj fields => noHandleObj fields
  | .handle _ => false

/-- `true` iff no value in the list contains a live handle. -/
def noHandleList : List Val → Bool
  | [] => true
  | v :: vs => Val.noHandle v && noHandleList vs

/-- `true` iff no field value contains a live handle. -/
def noHandleObj : List (String × Val) → Bool
  | [] => true
  | (_, v) :: fs => Val.noHandle v && noHandleObj fs

end

/-- The duck-typed attribute view used by the custom `__eq__` methods.
These five names are every attribute any custom `__eq__` reads from its
right operand; an entity that does not declare the attribute shows `none`,
and reading it raises `AttributeError`. -/
structure PyAttrs where
  text : Option String
  link : Option String
  title : Option String
  uniqueid : Option String
  id : Option String
deriving Repr, DecidableEq

/-- Python attribute access `obj.name`: raises `AttributeError` when the
attribute does not exist. -/
def attrOrRaise : Option String → Except PyErr String
  | none => .error .attributeError
  | some s => .ok s

/-! ### Author -/

/-- Dataclass `Author`: uniqueid, avatar, link, nickname, element. -/
structure Author where
  uniqueid : String
  avatar : String
  link : String
  nickname : String
  element : Option WebElement
deriving Repr, DecidableEq

/-- `Author(...)`: dataclass field assignment followed by `__post_init__`,
which strips the four string fields (the element is stored as given). -/
def Author.make (uniqueid avatar link nickname : String)
    (element : Option WebElement) : Author :=
  { uniqueid := pyStrip uniqueid, avatar := pyStrip avatar, link := pyStrip link,
    nickname := pyStrip nickname, element := element }

/-- `Author.__eq__`: `(self.uniqueid == obj.uniqueid) and (self.link == obj.link)`
with Python short-circuit evaluation of `and`. -/
def Author.eqPy (a : Author) (o : PyAttrs) : Except PyErr Bool :=
  match attrOrRaise o.uniqueid with
  | .error e => .error e
  | .ok ouniqueid =>
    if a.uniqueid = ouniqueid then
      match attrOrRaise o.link with
      | .error e => .error e
      | .ok olink => .ok (a.link == olink)
    else .ok false

/-- `Author.to_dict`. -/
def Author.to_dict (a : Author) : Except PyErr (List (String × Val)) :=
  match getInnerHTML a.element with
  | .error e => .error e
  | .ok inner =>
    .ok [("uniqueid", .str a.uniqueid), ("nickname", .str a.nickname),
         ("link", .str a.link), ("avatar", .str a.avatar),
         ("element", .str inner)]

/-- The attributes of an `Author` instance that `PyAttrs` tracks. -/
def Author.attrs (a : Author) : PyAttrs :=
  { text := none, link := some a.link, title := none,
    uniqueid := some a.uniqueid, id := none }

/-! ### Tag -/

/-- Dataclass `Tag`: link, text, element. -/
structure Tag where
  link : String
  text : String
  element : Option WebElement
deriving Repr, DecidableEq

/-- `Tag(...)`: field assignment then `__post_init__` strips link and text. -/
def Tag.make (link text : String) (element : Option WebElement) : Tag :=
  { link := pyStrip link, text := pyStrip text, element := element }

/-- `Tag.__eq__`: `(self.text == obj.text) and (self.link == obj.link)`
with short-circuit `and`. -/
def Tag.eqPy (t : Tag) (o : PyAttrs) : Except PyErr Bool :=
  match attrOrRaise o.text with
  | .error e => .error e
  | .ok otext =>
    if t.text = otext then
      match attrOrRaise o.link with
      | .error e => .error e
      | .ok olink => .ok (t.link == olink)
    else .ok false

/-- `Tag.to_dict`. -/
def Tag.to_dict (t : Tag) : Except PyErr (List (String × Val)) :=
  match getInnerHTML t.element with
  | .error e => .error e
  | .ok inner =>
    .ok [("link", .str t.link), ("text", .str t.text), ("element", .str inner)]

/-- The attributes of a `Tag` instance that `PyAttrs` tracks. -/
def Tag.attrs (t : Tag) : PyAttrs :=
  { text := some t.text, link := some t.link, title := none,
    uniqueid := none, id := none }

/-! ### Caption -/

/-- Dataclass `Caption`: text, tags, element. -/
structure Caption where
  text : String
  tags : List Tag
  element : Option WebElement
deriving Repr, DecidableEq

/-- `Caption(...)`: field assignment then `__post_init__` strips the text
only (the tag list and element are stored as given). -/
def Caption.make (text : String) (tags : List Tag)
    (element : Option WebElement) : Caption :=
  { text := pyStrip text, tags := tags, element := element }

/-- The list comprehension `[tag.to_dict() for tag in self.tags]`:
evaluates each tag in order, raising at the first failure. -/
def tagDicts : List Tag → Except PyErr (List Val)
  | [] => .ok []
  | t :: ts =>
    match t.to_dict with
    | .error e => .error e
    | .ok d =>
      match tagDicts ts with
      | .error e => .error e
      | .ok ds => .ok (Val.obj d :: ds)

/-- `Caption.to_dict`: the tag comprehension runs first, then the element
snapshot is taken. -/
def Caption.to_dict (c : Caption) : Except PyErr (List (String × Val)) :=
  match tagDicts c.tags with
  | .error e => .error e
  | .ok ds =>
    match getInnerHTML c.element with
    | .error e => .error e
    | .ok inner =>
      .ok [("tags", .arr ds), ("text", .str c.text), ("element", .str inner)]

/-- The attributes of a `Caption` instance that `PyAttrs` tracks
(`Caption` declares `text` but no `link`, `title`, `uniqueid` or `id`). -/
def Caption.attrs (c : Caption) : PyAttrs :=
  { text := some c.text, link := none, title := none,
    uniqueid := none, id := none }

/-! ### Music -/

/-- Dataclass `Music`: title, link, element. -/
structure Music where
  title : String
  link : String
  element : Option WebElement
deriving Repr, DecidableEq

/-- `Music(...)`: field assignment then `__post_init__` strips title and link. -/
def Music.make (title link : String) (element : Option WebElement) : Music :=
  { title := pyStrip title, link := pyStrip link, element := element }

/-- `Music.__eq__`: `(self.title == obj.title) and (self.link == obj.link)`
with short-circuit `and`. -/
def Music.eqPy (m : Music) (o : PyAttrs) : Except PyErr Bool :=
  match attrOrRaise o.title with
  | .error e => .error e
  | .ok otitle =>
    if m.title = otitle then
      match attrOrRaise o.link with
      | .error e => .error e
      | .ok olink => .ok (m.link == olink)
    else .ok false

/-- `Music.to_dict`. -/
def Music.to_dict (m : Music) : Except PyErr (List (String × Val)) :=
  match getInnerHTML m.element with
  | .error e => .error e
  | .ok inner =>
    .ok [("title", .str m.title), ("link", .str m.link), ("element", .str inner)]

/-- The attributes of a `Music` instance that `PyAttrs` tracks. -/
def Music.attrs (m : Music) : PyAttrs :=
  { text := none, link := some m.link, title := some m.title,
    uniqueid := none, id := none }

/-! ### Media -/

/-- Dataclass `Media`: link, element. -/
structure Media where
  link : String
  element : Option WebElement
deriving Repr, DecidableEq

/-- `Media(...)`: field assignment then `__post_init__` strips the link. -/
def Media.make (link : String) (element : Option WebElement) : Media :=
  { link := pyStrip link, element := element }

/-- `Media.to_dict`. -/
def Media.to_dict (m : Media) : Except PyErr (List (String × Val)) :=
  match getInnerHTML m.element with
  | .error e => .error e
  | .ok inner => .ok [("link", .str m.link), ("element", .str inner)]

/-- The attributes of a `Media` instance that `PyAttrs` tracks. -/
def Media.attrs (m : Media) : PyAttrs :=
  { text := none, link := some m.link, title := none,
    uniqueid := none, id := none }

/-! ### Metrics -/

/-- `isoformat t`: the ISO-8601 rendering of the abstract wall-clock time
`t` (`datetime.datetime.now().isoformat()` evaluated when the clock reads
`t`).  Distinct times render to distinct strings. -/
def isoformat (t : Nat) : String := "iso:" ++ toString t

/-- The state created by executing the `class Metrics` statement: the
default expression `datetime.datetime.now().isoformat()` in the field
declaration `as_of: str = ...` is evaluated exactly once, at class
definition (module import) time, and the resulting string is stored as the
shared default for every later construction. -/
structure MetricsClass where
  default_as_of : String
deriving Repr, DecidableEq

/-- Executing the `class Metrics` statement while the clock reads
`loadTime`. -/
def defineMetricsClass (loadTime : Nat) : MetricsClass :=
  { default_as_of := isoformat loadTime }

/-- Dataclass `Metrics`: likes, comments, shares, element, as_of. -/
structure Metrics where
  likes : String
  comments : String
  shares : String
  element : Option WebElement
  as_of : String
deriving Repr, DecidableEq

/-- `Metrics(...)` constructed while the clock reads `now`: field
assignment (using the class-level default for a missing `as_of`) then
`__post_init__`, which strips likes, comments and shares — `as_of` is
stored verbatim.  The constructor never reads `now`: the default was
precomputed in `cls`. -/
def Metrics.make (cls : MetricsClass) (now : Nat)
    (likes comments shares : String) (element : Option WebElement)
    (as_of : Option String) : Metrics :=
  { likes := pyStrip likes, comments := pyStrip comments, shares := pyStrip shares,
    element := element, as_of := as_of.getD cls.default_as_of }

/-- `Metrics.to_dict`. -/
def Metrics.to_dict (m : Metrics) : Except PyErr (List (String × Val)) :=
  match getInnerHTML m.element with
  | .error e => .error e
  | .ok inner =>
    .ok [("likes", .str m.likes), ("comments", .str m.comments),
         ("shares", .str m.shares), ("as_of", .str m.as_of),
         ("element", .str inner)]

/-- The attributes of a `Metrics` instance that `PyAttrs` tracks
(`Metrics` declares none of the five). -/
def Metrics.attrs (_m : Metrics) : PyAttrs :=
  { text := none, link := none, title := none, uniqueid := none, id := none }

/-! ### Tiktok (the composite record) -/

/-- Dataclass `Tiktok`: id, author, caption, music, media, metrics,
element, status (`status: str = None`, hence an `Option`). -/
structure Tiktok where
  id : String
  author : Author
  caption : Caption
  music : Music
  media : Media
  metrics : Metrics
  element : Option WebElement
  status : Option String
deriving Repr, DecidableEq

/-- `Tiktok(...)`: plain dataclass field assignment.  `Tiktok` defines no
`__post_init__`, so every field — including `id` and `status` — is stored
verbatim, untrimmed. -/
def Tiktok.make (id : String) (author : Author) (caption : Caption)
    (music : Music) (media : Media) (metrics : Metrics)
    (element : Option WebElement) (status : Option String) : Tiktok :=
  { id := id, author := author, caption := caption, music := music,
    media := media, metrics := metrics, element := element, status := status }

/-- `Tiktok.to_dict`: the `dict(...)` call evaluates its arguments left to
right (`id`, then each child `to_dict`, then the element snapshot, then
`status`), raising at the first failure. -/
def Tiktok.to_dict (t : Tiktok) : Except PyErr (List (String × Val)) :=
  match t.author.to_dict with
  | .error e => .error e
  | .ok da =>
  match t.caption.to_dict with
  | .error e => .error e
  | .ok dc =>
  match t.music.to_dict with
  | .error e => .error e
  | .ok dmu =>
  match t.media.to_dict with
  | .error e => .error e
  | .ok dme =>
  match t.metrics.to_dict with
  | .error e => .error e
  | .ok dmt =>
  match getInnerHTML t.element with
  | .error e => .error e
  | .ok inner =>
    .ok [("id", .str t.id), ("Author", .obj da), ("Caption", .obj dc),
         ("Music", .obj dmu), ("Media", .obj dme), ("Metrics", .obj dmt),
         ("Element", .str inner),
         ("Status", match t.status with | none => Val.null | some s => Val.str s)]

/-- `Tiktok.__eq__`: `self.id == obj.id` — a single duck-typed attribute
access, no type check. -/
def Tiktok.eqPy (t : Tiktok) (o : PyAttrs) : Except PyErr Bool :=
  match attrOrRaise o.id with
  | .error e => .error e
  | .ok oid => .ok (t.id == oid)

/-- The attributes of a `Tiktok` instance that `PyAttrs` tracks
(`Tiktok` declares `id` and none of the other four). -/
def Tiktok.attrs (t : Tiktok) : PyAttrs :=
  { text := none, link := none, title := none, uniqueid := none,
    id := some t.id }

/-! ### Tiktok.save

`save` is modelled as a function from the record, the HTTP capability
(`fetch`, the behaviour of `requests.get`) and the target directory to the
list of files it wrote (in write order) together with the exception that
propagated to the caller, if any.  Local file writes are assumed to
succeed (the `IOError` path is outside the claims under study). -/

/-- Content of a file written by `save`. -/
inductive FileContent where
  /-- `json.dump(self.to_dict(), file)` of the given value. -/
  | jsonFile (v : Val)
  /-- `file.write(response.content)`: the raw fetched bytes. -/
  | videoFile (content : List Nat)
  /-- the file was opened (created/truncated) but nothing was written
  before an exception aborted the `with` block. -/
  | emptyFile
deriving Repr

/-- Result of a `save` call: files on disk afterwards, in the order they
were written, and the exception propagated to the caller (if any). -/
structure SaveOutcome where
  files : List (String × FileContent)
  err : Option PyErr
deriving Repr

/-- `Tiktok.save(path)`:
`if self.media.link:` — a Python string is truthy iff non-empty — then
`_save_metadata` (open `<path>/<id>.json`, evaluate `self.to_dict()`, dump
it) followed by `_save_video` (`requests.get(self.media.link)` first, then
open `<path>/<id>.mp4` and write the bytes).  With a falsy link nothing at
all happens. -/
def Tiktok.save (t : Tiktok) (fetch : String → Except PyErr (List Nat))
    (path : String) : SaveOutcome :=
  if t.media.link = "" then { files := [], err := none }
  else
    let jsonPath := path ++ "/" ++ t.id ++ ".json"
    match t.to_dict with
    | .error e => { files := [(jsonPath, .emptyFile)], err := some e }
    | .ok d =>
      match fetch t.media.link with
      | .error e => { files := [(jsonPath, .jsonFile (.obj d))], err := some e }
      | .ok content =>
        { files := [(jsonPath, .jsonFile (.obj d)),
                    (path ++ "/" ++ t.id ++ ".mp4", .videoFile content)],
          err := none }

/-! ### Concrete sample values (for counterexamples and witnesses) -/

/-- A sample `Author` built by the constructor. -/
def sampleAuthor : Author := Author.make "u" "av" "al" "nick" (some ⟨"EA"⟩)

/-- A sample `Tag` built by the constructor. -/
def sampleTag : Tag := Tag.make "/t" "#t" (some ⟨"ET"⟩)

/-- A sample `Caption` holding one tag. -/
def sampleCaption : Caption := Caption.make "cap" [sampleTag] (some ⟨"EC"⟩)

/-- A sample `Music`. -/
def sampleMusic : Music := Music.make "song" "ml" (some ⟨"EM"⟩)

/-- A sample `Media` with a non-empty link. -/
def sampleMedia : Media := Media.make "http://v" (some ⟨"EV"⟩)

/-- A sample `Media` whose link is empty. -/
def sampleMediaEmpty : Media := Media.make "" (some ⟨"EV"⟩)

/-- A sample `Metrics` with an explicit `as_of`. -/
def sampleMetrics : Metrics :=
  Metrics.make (defineMetricsClass 0) 0 "1" "2" "3" (some ⟨"EME"⟩) (some "TS")

/-- A sample record with a non-empty media link. -/
def sampleTiktok : Tiktok :=
  Tiktok.make "123" sampleAuthor sampleCaption sampleMusic sampleMedia
    sampleMetrics (some ⟨"ER"⟩) (some "ok")

/-- A sample record with an empty media link. -/
def sampleTiktokNoMedia : Tiktok :=
  Tiktok.make "456" sampleAuthor sampleCaption sampleMusic sampleMediaEmpty
    sampleMetrics (some ⟨"ER"⟩) none

/-- The serialized form of `sampleTiktok`. -/
def sampleTiktokDict : List (String × Val) :=
  [("id", .str "123"),
   ("Author", .obj [("uniqueid", .str "u"), ("nickname", .str "nick"),
     ("link", .str "al"), ("avatar", .str "av"), ("element", .str "EA")]),
   ("Caption", .obj [("tags", .arr [.obj [("link", .str "/t"),
     ("text", .str "#t"), ("element", .str "ET")]]),
     ("text", .str "cap"), ("element", .str "EC")]),
   ("Music", .obj [("title", .str "song"), ("link", .str "ml"),
     ("element", .str "EM")]),
   ("Media", .obj [("link", .str "http://v"), ("element", .str "EV")]),
   ("Metrics", .obj [("likes", .str "1"), ("comments", .str "2"),
     ("shares", .str "3"), ("as_of", .str "TS"), ("element", .str "EME")]),
   ("Element", .str "ER"),
   ("Status", .str "ok")]

/-- An HTTP capability that always succeeds with three bytes. -/
def sampleFetch : String → Except PyErr (List Nat) := fun _ => .ok [7, 8, 9]

/-- An HTTP capability that always fails with a network error. -/
def failFetch : String → Except PyErr (List Nat) := fun _ => .error .networkError

/-- A second record with the same id as `sampleTiktok` but different
author, caption, music, media, metrics, element and status. -/
def sampleTiktokVariant : Tiktok :=
  Tiktok.make "123" (Author.make "other" "x" "y" "z" none)
    (Caption.make "different" [] none) (Music.make "tune" "u" none)
    sampleMediaEmpty (Metrics.make (defineMetricsClass 5) 6 "9" "9" "9" none none)
    none none

/-! ### Helper lemmas -/

/-- `true` iff the string has neither a leading nor a trailing whitespace
character. -/
def noEdgeWS (s : String) : Bool :=
  s.data.head?.all (fun c => !c.isWhitespace) &&
    s.data.getLast?.all (fun c => !c.isWhitespace)

theorem pyStrip_eq_rdropWhile (s : String) :
    pyStrip s =
      ⟨List.rdropWhile Char.isWhitespace
        (s.data.dropWhile Char.isWhitespace)⟩ := by
  simp [pyStrip, List.rdropWhile]

theorem headAll_dropWhile {α : Type} (p : α → Bool) (l : List α) :
    (List.dropWhile p l).head?.all (fun c => !p c) = true := by
  cases hc : (List.dropWhile p l).head? with
  | none => rfl
  | some x =>
    have h := List.head?_dropWhile_not p l
    rw [hc] at h
    simpa using h

theorem headAll_of_isPrefixOf {α : Type} {r l : List α} (h : r <+: l)
    (q : α → Bool) (hl : l.head?.all q = true) : r.head?.all q = true := by
  cases r with
  | nil => rfl
  | cons x rs =>
    obtain ⟨tl, htl⟩ := h
    subst htl
    simpa using hl

theorem getLastAll_rdropWhile {α : Type} (p : α → Bool) (l : List α) :
    (List.rdropWhile p l).getLast?.all (fun c => !p c) = true := by
  rcases eq_or_ne (List.rdropWhile p l) [] with h | h
  · simp [h]
  · rw [List.getLast?_eq_getLast _ h]
    have hlast := List.rdropWhile_last_not p l h
    simpa using hlast

theorem noEdgeWS_pyStrip (s : String) : noEdgeWS (pyStrip s) = true := by
  rw [pyStrip_eq_rdropWhile]
  unfold noEdgeWS
  rw [Bool.and_eq_true]
  exact ⟨headAll_of_isPrefixOf (List.rdropWhile_prefix _ _) _
      (headAll_dropWhile _ _),
    getLastAll_rdropWhile _ _⟩

theorem author_to_dict_ok {a : Author} {d} (h : a.to_dict = .ok d) :
    ∃ w, a.element = some w ∧
      d = [("uniqueid", .str a.uniqueid), ("nickname", .str a.nickname),
           ("link", .str a.link), ("avatar", .str a.avatar),
           ("element", .str w.innerHTML)] := by
  cases hel : a.element with
  | none => simp [Author.to_dict, getInnerHTML, hel] at h
  | some w =>
    simp [Author.to_dict, getInnerHTML, hel] at h
    exact ⟨w, rfl, h.symm⟩

theorem tag_to_dict_ok {t : Tag} {d} (h : t.to_dict = .ok d) :
    ∃ w, t.element = some w ∧
      d = [("link", .str t.link), ("text", .str t.text),
           ("element", .str w.innerHTML)] := by
  cases hel : t.element with
  | none => simp [Tag.to_dict, getInnerHTML, hel] at h
  | some w =>
    simp [Tag.to_dict, getInnerHTML, hel] at h
    exact ⟨w, rfl, h.symm⟩

theorem music_to_dict_ok {m : Music} {d} (h : m.to_dict = .ok d) :
    ∃ w, m.element = some w ∧
      d = [("title", .str m.title), ("link", .str m.link),
           ("element", .str w.innerHTML)] := by
  cases hel : m.element with
  | none => simp [Music.to_dict, getInnerHTML, hel] at h
  | some w =>
    simp [Music.to_dict, getInnerHTML, hel] at h
    exact ⟨w, rfl, h.symm⟩

theorem media_to_dict_ok {m : Media} {d} (h : m.to_dict = .ok d) :
    ∃ w, m.element = some w ∧
      d = [("link", .str m.link), ("element", .str w.innerHTML)] := by
  cases hel : m.element with
  | none => simp [Media.to_dict, getInnerHTML, hel] at h
  | some w =>
    simp [Media.to_dict, getInnerHTML, hel] at h
    exact ⟨w, rfl, h.symm⟩

theorem metrics_to_dict_ok {m : Metrics} {d} (h : m.to_dict = .ok d) :
    ∃ w, m.element = some w ∧
      d = [("likes", .str m.likes), ("comments", .str m.comments),
           ("shares", .str m.shares), ("as_of", .str m.as_of),
           ("element", .str w.innerHTML)] := by
  cases hel : m.element with
  | none => simp [Metrics.to_dict, getInnerHTML, hel] at h
  | some w =>
    simp [Metrics.to_dict, getInnerHTML, hel] at h
    exact ⟨w, rfl, h.symm⟩

theorem caption_to_dict_ok {c : Caption} {d} (h : c.to_dict = .ok d) :
    ∃ ds w, tagDicts c.tags = .ok ds ∧ c.element = some w ∧
      d = [("tags", .arr ds), ("text", .str c.text),
           ("element", .str w.innerHTML)] := by
  unfold Caption.to_dict at h
  cases hts : tagDicts c.tags with
  | error e => rw [hts] at h; exact Except.noConfusion h
  | ok ds =>
    rw [hts] at h
    cases hel : c.element with
    | none => simp [getInnerHTML, hel] at h
    | some w =>
      simp [getInnerHTML, hel] at h
      exact ⟨ds, w, rfl, rfl, h.symm⟩

theorem tagDicts_ok_forall₂ {ts : List Tag} {l : List Val}
    (h : tagDicts ts = .ok l) :
    List.Forall₂ (fun tg v => ∃ td, Tag.to_dict tg = .ok td ∧ v = Val.obj td)
      ts l := by
  induction ts generalizing l with
  | nil =>
    simp [tagDicts] at h
    subst h
    exact List.Forall₂.nil
  | cons t ts ih =>
    unfold tagDicts at h
    cases ht : t.to_dict with
    | error e => rw [ht] at h; exact Except.noConfusion h
    | ok dt =>
      rw [ht] at h
      cases hts : tagDicts ts with
      | error e => rw [hts] at h; exact Except.noConfusion h
      | ok ds =>
        rw [hts] at h
        simp at h
        subst h
        exact List.Forall₂.cons ⟨dt, ht, rfl⟩ (ih hts)

theorem tagDicts_noHandle {ts : List Tag} {l : List Val}
    (h : tagDicts ts = .ok l) : noHandleList l = true := by
  induction ts generalizing l with
  | nil =>
    simp [tagDicts] at h
    subst h
    rfl
  | cons t ts ih =>
    unfold tagDicts at h
    cases ht : t.to_dict with
    | error e => rw [ht] at h; exact Except.noConfusion h
    | ok dt =>
      rw [ht] at h
      cases hts : tagDicts ts with
      | error e => rw [hts] at h; exact Except.noConfusion h
      | ok ds =>
        rw [hts] at h
        simp at h
        subst h
        obtain ⟨w, -, rfl⟩ := tag_to_dict_ok ht
        simp [noHandleList, Val.noHandle, noHandleObj, ih hts]

/-- Inversion of `Tiktok.to_dict`: a successful serialization means every
child serialized successfully and the result is the eight-field record
object. -/
theorem tiktok_to_dict_ok {t : Tiktok} {d} (hd : t.to_dict = .ok d) :
    ∃ da dc dmu dme dmt w,
      t.author.to_dict = .ok da ∧ t.caption.to_dict = .ok dc ∧
      t.music.to_dict = .ok dmu ∧ t.media.to_dict = .ok dme ∧
      t.metrics.to_dict = .ok dmt ∧ t.element = some w ∧
      d = [("id", .str t.id), ("Author", .obj da), ("Caption", .obj dc),
           ("Music", .obj dmu), ("Media", .obj dme), ("Metrics", .obj dmt),
           ("Element", .str w.innerHTML),
           ("Status", match t.status with
             | none => Val.null | some s => Val.str s)] := by
  unfold Tiktok.to_dict at hd
  cases ha : t.author.to_dict with
  | error e => rw [ha] at hd; exact Except.noConfusion hd
  | ok da =>
  rw [ha] at hd
  cases hc : t.caption.to_dict with
  | error e => rw [hc] at hd; exact Except.noConfusion hd
  | ok dc =>
  rw [hc] at hd
  cases hmu : t.music.to_dict with
  | error e => rw [hmu] at hd; exact Except.noConfusion hd
  | ok dmu =>
  rw [hmu] at hd
  cases hme : t.media.to_dict with
  | error e => rw [hme] at hd; exact Except.noConfusion hd
  | ok dme =>
  rw [hme] at hd
  cases hmt : t.metrics.to_dict with
  | error e => rw [hmt] at hd; exact Except.noConfusion hd
  | ok dmt =>
  rw [hmt] at hd
  cases hel : t.element with
  | none => simp [getInnerHTML, hel] at hd
  | some w =>
    simp [getInnerHTML, hel] at hd
    exact ⟨da, dc, dmu, dme, dmt, w, rfl, rfl, rfl, rfl, rfl, rfl, hd.symm⟩

/-! ### Claim theorems -/

/-- Claim C1, counterexample: the `Tiktok` record has no `__post_init__`,
so a record constructed with a whitespace-padded id stores that id
verbatim — the stored field differs from the whitespace-trimmed input,
refuting the claim for the Record's id field. -/
theorem claim1_record_id_untrimmed_cex :
    (Tiktok.make " 123 " sampleAuthor sampleCaption sampleMusic sampleMedia
        sampleMetrics (some ⟨"ER"⟩) (some " ok ")).id = " 123 " ∧
    (Tiktok.make " 123 " sampleAuthor sampleCaption sampleMusic sampleMedia
        sampleMetrics (some ⟨"ER"⟩) (some " ok ")).status = some " ok " ∧
    " 123 " ≠ pyStrip " 123 " := by
  refine ⟨rfl, rfl, by decide⟩

/-- Claim C1 (amended): every string field of `Tag`, `Author`, `Music`,
`Media`, `Metrics` (likes/comments/shares) and `Caption` (text) equals the
whitespace-trimmed input immediately after construction, and hence carries
no leading or trailing whitespace; the `Tiktok` record, however, stores its
`id` and `status` verbatim, and `Metrics` stores `as_of` verbatim. -/
theorem claim1_trimming_amended (s₁ s₂ s₃ s₄ : String)
    (el : Option WebElement) (tags : List Tag) (cls : MetricsClass)
    (now : Nat) (ao : Option String) (a : Author) (c : Caption) (mu : Music)
    (me : Media) (mt : Metrics) :
    (Author.make s₁ s₂ s₃ s₄ el).uniqueid = pyStrip s₁ ∧
    (Author.make s₁ s₂ s₃ s₄ el).avatar = pyStrip s₂ ∧
    (Author.make s₁ s₂ s₃ s₄ el).link = pyStrip s₃ ∧
    (Author.make s₁ s₂ s₃ s₄ el).nickname = pyStrip s₄ ∧
    (Tag.make s₁ s₂ el).link = pyStrip s₁ ∧
    (Tag.make s₁ s₂ el).text = pyStrip s₂ ∧
    (Caption.make s₁ tags el).text = pyStrip s₁ ∧
    (Music.make s₁ s₂ el).title = pyStrip s₁ ∧
    (Music.make s₁ s₂ el).link = pyStrip s₂ ∧
    (Media.make s₁ el).link = pyStrip s₁ ∧
    (Metrics.make cls now s₁ s₂ s₃ el ao).likes = pyStrip s₁ ∧
    (Metrics.make cls now s₁ s₂ s₃ el ao).comments = pyStrip s₂ ∧
    (Metrics.make cls now s₁ s₂ s₃ el ao).shares = pyStrip s₃ ∧
    noEdgeWS (Author.make s₁ s₂ s₃ s₄ el).uniqueid = true ∧
    noEdgeWS (Tag.make s₁ s₂ el).text = true ∧
    (Tiktok.make s₁ a c mu me mt el ao).id = s₁ ∧
    (Tiktok.make s₁ a c mu me mt el ao).status = ao ∧
    (Metrics.make cls now s₁ s₂ s₃ el (some s₄)).as_of = s₄ := by
  refine ⟨rfl, rfl, rfl, rfl, rfl, rfl, rfl, rfl, rfl, rfl, rfl, rfl, rfl,
    noEdgeWS_pyStrip s₁, noEdgeWS_pyStrip s₂, rfl, rfl, rfl⟩

/-- Claim C2: `Tag`, `Author` and `Music` equality holds iff the natural
key fields — (text, link), (uniqueid, link) and (title, link)
respectively — are equal, for arbitrary values of every other field
(element handles, avatar, nickname). -/
theorem claim2_natural_key_equality (t₁ t₂ : Tag) (a₁ a₂ : Author)
    (m₁ m₂ : Music) :
    (Tag.eqPy t₁ t₂.attrs = .ok true ↔ t₁.text = t₂.text ∧ t₁.link = t₂.link) ∧
    (Author.eqPy a₁ a₂.attrs = .ok true ↔
      a₁.uniqueid = a₂.uniqueid ∧ a₁.link = a₂.link) ∧
    (Music.eqPy m₁ m₂.attrs = .ok true ↔
      m₁.title = m₂.title ∧ m₁.link = m₂.link) := by
  refine ⟨?_, ?_, ?_⟩
  · by_cases h : t₁.text = t₂.text <;>
      simp [Tag.eqPy, Tag.attrs, attrOrRaise, h]
  · by_cases h : a₁.uniqueid = a₂.uniqueid <;>
      simp [Author.eqPy, Author.attrs, attrOrRaise, h]
  · by_cases h : m₁.title = m₂.title <;>
      simp [Music.eqPy, Music.attrs, attrOrRaise, h]

/-- Claim C5: the default expression for `Metrics.as_of` is evaluated once
at class-definition (module import) time, so two instances constructed at
different later times without an explicit `as_of` both receive the
import-time timestamp — not their own construction times, which refutes
the claimed per-instance construction-time default (`isoformat 100 ≠
isoformat 200`). -/
theorem claim5_as_of_class_definition_time :
    (Metrics.make (defineMetricsClass 100) 200 "1" "2" "3"
        (some ⟨"E"⟩) none).as_of = isoformat 100 ∧
    (Metrics.make (defineMetricsClass 100) 300 "4" "5" "6"
        (some ⟨"E"⟩) none).as_of = isoformat 100 ∧
    isoformat 100 ≠ isoformat 200 := by
  refine ⟨rfl, rfl, by decide⟩

/-- Claim C7, counterexample: constructing an `Author` with a `None`
source handle succeeds — it returns a fully-formed value with the handle
stored — rather than failing at construction time; the failure surfaces
only when `to_dict` dereferences the handle, and it is an
`AttributeError`, not a `StaleHandleError` (no such class exists in the
code). -/
theorem claim7_null_handle_construction_succeeds_cex :
    Author.make " user " "a" "l" "n" none =
      { uniqueid := "user", avatar := "a", link := "l", nickname := "n",
        element := none } ∧
    (Author.make " user " "a" "l" "n" none).to_dict =
      .error .attributeError := by
  refine ⟨by decide, rfl⟩

/-- Claim C7 (amended): for every entity, construction with a null
source handle succeeds (no handle check runs at construction); calling
`to_dict` on the result fails with an `AttributeError` — `NoneType` has no
`get_attribute` — not a `StaleHandleError`. -/
theorem claim7_null_handle_fails_only_on_serialization
    (s₁ s₂ s₃ s₄ : String) (cls : MetricsClass) (now : Nat) :
    (Author.make s₁ s₂ s₃ s₄ none).element = none ∧
    (Author.make s₁ s₂ s₃ s₄ none).to_dict = .error .attributeError ∧
    (Tag.make s₁ s₂ none).element = none ∧
    (Tag.make s₁ s₂ none).to_dict = .error .attributeError ∧
    (Caption.make s₁ [] none).element = none ∧
    (Caption.make s₁ [] none).to_dict = .error .attributeError ∧
    (Music.make s₁ s₂ none).element = none ∧
    (Music.make s₁ s₂ none).to_dict = .error .attributeError ∧
    (Media.make s₁ none).element = none ∧
    (Media.make s₁ none).to_dict = .error .attributeError ∧
    (Metrics.make cls now s₁ s₂ s₃ none none).element = none ∧
    (Metrics.make cls now s₁ s₂ s₃ none none).to_dict =
      .error .attributeError := by
  refine ⟨rfl, rfl, rfl, rfl, rfl, rfl, rfl, rfl, rfl, rfl, rfl, rfl⟩

/-- Claim C9, counterexample: comparing a `Tag` with a `Caption` whose
`text` differs silently returns `False` — `Caption` does have a `text`
attribute, the first comparison is false, and Python's short-circuit `and`
never reaches the missing `link` attribute — refuting "never silently
returns false". -/
theorem claim9_tag_caption_silent_false_cex :
    Tag.eqPy (Tag.make "/tag/a" " #a " (some ⟨"E1"⟩))
      (Caption.make "hello" [] (some ⟨"E2"⟩)).attrs = .ok false := by
  rfl

/-- Claim C9 (amended): comparing entities of different kinds raises an
`AttributeError` (not a `TypeError`) exactly when an accessed key
attribute is missing on the right operand — `Tag` vs `Music` (no `text`),
`Author` vs `Tag` (no `uniqueid`), `Music` vs `Tag` (no `title`), and
`Tag` vs `Caption` whose texts agree (no `link`) — but a `Tag` compared
with a `Caption` whose `text` differs silently returns `False` because the
short-circuit `and` stops before the missing attribute. -/
theorem claim9_cross_kind_comparison (t : Tag) (m : Music) (a : Author)
    (c : Caption) :
    Tag.eqPy t m.attrs = .error .attributeError ∧
    Author.eqPy a t.attrs = .error .attributeError ∧
    Music.eqPy m t.attrs = .error .attributeError ∧
    (t.text = c.text → Tag.eqPy t c.attrs = .error .attributeError) ∧
    (t.text ≠ c.text → Tag.eqPy t c.attrs = .ok false) := by
  refine ⟨?_, ?_, ?_, ?_, ?_⟩
  · simp [Tag.eqPy, Music.attrs, attrOrRaise]
  · simp [Author.eqPy, Tag.attrs, attrOrRaise]
  · simp [Music.eqPy, Tag.attrs, attrOrRaise]
  · intro h; simp [Tag.eqPy, Caption.attrs, attrOrRaise, h]
  · intro h; simp [Tag.eqPy, Caption.attrs, attrOrRaise, h]

/-- Claim C9 (amended) at concrete inputs: a tag-vs-caption comparison
with coinciding text raises `AttributeError`, and with differing text
silently returns `False`. -/
theorem claim9_cross_kind_comparison_witness :
    Tag.eqPy sampleTag (Caption.make " #t " [] none).attrs =
      .error .attributeError ∧
    Tag.eqPy sampleTag sampleCaption.attrs = .ok false := by
  refine ⟨(claim9_cross_kind_comparison sampleTag sampleMusic sampleAuthor
      (Caption.make " #t " [] none)).2.2.2.1 (by decide),
    (claim9_cross_kind_comparison sampleTag sampleMusic sampleAuthor
      sampleCaption).2.2.2.2 (by decide)⟩

/-- Claim C4: a successful `Tiktok.to_dict` produces a mapping with
exactly the top-level keys `id`, `Author`, `Caption`, `Music`, `Media`,
`Metrics`, `Element`, `Status` in this naming and casing, whose nested
entity mappings carry exactly the documented keys, and whose `Status`
entry is the status string, or null when the status is absent. -/
theorem claim4_wire_contract (t : Tiktok) (d : List (String × Val))
    (hd : t.to_dict = .ok d) :
    d.map Prod.fst = ["id", "Author", "Caption", "Music", "Media",
      "Metrics", "Element", "Status"] ∧
    (∀ v, List.lookup "Author" d = some v →
      v.objKeys = ["uniqueid", "nickname", "link", "avatar", "element"]) ∧
    (∀ v, List.lookup "Caption" d = some v →
      v.objKeys = ["tags", "text", "element"]) ∧
    (∀ v, List.lookup "Music" d = some v →
      v.objKeys = ["title", "link", "element"]) ∧
    (∀ v, List.lookup "Media" d = some v →
      v.objKeys = ["link", "element"]) ∧
    (∀ v, List.lookup "Metrics" d = some v →
      v.objKeys = ["likes", "comments", "shares", "as_of", "element"]) ∧
    List.lookup "id" d = some (.str t.id) ∧
    List.lookup "Status" d = some (match t.status with
      | none => Val.null | some s => Val.str s) := by
  obtain ⟨da, dc, dmu, dme, dmt, w, ha, hc, hmu, hme, hmt, hel, rfl⟩ :=
    tiktok_to_dict_ok hd
  obtain ⟨wa, -, rfl⟩ := author_to_dict_ok ha
  obtain ⟨ds, wc, -, -, rfl⟩ := caption_to_dict_ok hc
  obtain ⟨wmu, -, rfl⟩ := music_to_dict_ok hmu
  obtain ⟨wme, -, rfl⟩ := media_to_dict_ok hme
  obtain ⟨wmt, -, rfl⟩ := metrics_to_dict_ok hmt
  refine ⟨rfl, ?_, ?_, ?_, ?_, ?_, rfl, rfl⟩ <;>
    (intro v hv; simp [List.lookup] at hv; subst hv; rfl)

/-- Claim C4 at a concrete record: the serialized sample record has the
eight documented top-level keys. -/
theorem claim4_wire_contract_witness :
    sampleTiktokDict.map Prod.fst = ["id", "Author", "Caption", "Music",
      "Media", "Metrics", "Element", "Status"] :=
  (claim4_wire_contract sampleTiktok sampleTiktokDict rfl).1

/-- Claim C8: a successful `to_dict` of a record contains no live handle
anywhere — every `element`/`Element` entry is a string snapshot,
recursively through the child entities — and the caption serializes its
tags in exactly the order supplied at construction, each as its own
`to_dict` mapping. -/
theorem claim8_snapshot_only (t : Tiktok) (d : List (String × Val))
    (hd : t.to_dict = .ok d) :
    noHandleObj d = true ∧
    (∀ cd, t.caption.to_dict = .ok cd →
      ∃ l, List.lookup "tags" cd = some (.arr l) ∧
        List.Forall₂
          (fun tg v => ∃ td, Tag.to_dict tg = .ok td ∧ v = Val.obj td)
          t.caption.tags l) := by
  constructor
  · obtain ⟨da, dc, dmu, dme, dmt, w, ha, hc, hmu, hme, hmt, hel, rfl⟩ :=
      tiktok_to_dict_ok hd
    obtain ⟨wa, -, rfl⟩ := author_to_dict_ok ha
    obtain ⟨ds, wc, hds, -, rfl⟩ := caption_to_dict_ok hc
    obtain ⟨wmu, -, rfl⟩ := music_to_dict_ok hmu
    obtain ⟨wme, -, rfl⟩ := media_to_dict_ok hme
    obtain ⟨wmt, -, rfl⟩ := metrics_to_dict_ok hmt
    cases t.status <;>
      simp [noHandleObj, Val.noHandle, noHandleList, tagDicts_noHandle hds]
  · intro cd hcd
    obtain ⟨ds, wc, hds, -, rfl⟩ := caption_to_dict_ok hcd
    exact ⟨ds, by simp [List.lookup], tagDicts_ok_forall₂ hds⟩

/-- Claim C8 at a concrete record: the serialized sample record contains
no live handle. -/
theorem claim8_snapshot_only_witness :
    noHandleObj sampleTiktokDict = true :=
  (claim8_snapshot_only sampleTiktok sampleTiktokDict rfl).1

/-- Claim C3: `save` writes no file at all when the media link is the
empty string (and raises nothing); with a non-empty media link it writes
exactly the two files `<path>/<id>.json` and `<path>/<id>.mp4`, in that
order, when serialization and the media fetch succeed (local file writes
are assumed to succeed in the model). -/
theorem claim3_save_file_layout (t : Tiktok)
    (fetch : String → Except PyErr (List Nat)) (path : String) :
    (t.media.link = "" →
      (t.save fetch path).files = [] ∧ (t.save fetch path).err = none) ∧
    (∀ d content, t.media.link ≠ "" → t.to_dict = .ok d →
      fetch t.media.link = .ok content →
      (t.save fetch path).files =
        [(path ++ "/" ++ t.id ++ ".json", .jsonFile (.obj d)),
         (path ++ "/" ++ t.id ++ ".mp4", .videoFile content)] ∧
      (t.save fetch path).err = none) := by
  constructor
  · intro h
    simp [Tiktok.save, h]
  · intro d content hne hd hf
    simp [Tiktok.save, hne, hd, hf]

/-- Claim C3 at concrete records: the sample record with an empty media
link produces zero files; the one with a non-empty link produces exactly
its `.json` and `.mp4` files. -/
theorem claim3_save_file_layout_witness :
    ((sampleTiktokNoMedia.save sampleFetch "dir").files = [] ∧
      (sampleTiktokNoMedia.save sampleFetch "dir").err = none) ∧
    (sampleTiktok.save sampleFetch "dir").files =
      [("dir/123.json", .jsonFile (.obj sampleTiktokDict)),
       ("dir/123.mp4", .videoFile [7, 8, 9])] :=
  ⟨(claim3_save_file_layout sampleTiktokNoMedia sampleFetch "dir").1
      (by decide),
   ((claim3_save_file_layout sampleTiktok sampleFetch "dir").2
      sampleTiktokDict [7, 8, 9] (by decide) rfl rfl).1⟩

/-- Claim C6: with a non-empty media link, `save` writes the JSON metadata
file before fetching the media bytes; when the fetch fails the error
propagates to the caller and the JSON file is already on disk — no
rollback, leaving an orphaned metadata file. -/
theorem claim6_json_survives_fetch_failure (t : Tiktok)
    (fetch : String → Except PyErr (List Nat)) (path : String)
    (d : List (String × Val)) (e : PyErr) (hne : t.media.link ≠ "")
    (hd : t.to_dict = .ok d) (hf : fetch t.media.link = .error e) :
    (t.save fetch path).err = some e ∧
    (t.save fetch path).files =
      [(path ++ "/" ++ t.id ++ ".json", .jsonFile (.obj d))] := by
  simp [Tiktok.save, hne, hd, hf]

/-- Claim C6 at a concrete record: a failing fetch propagates the network
error while the metadata file written in step 1 remains. -/
theorem claim6_json_survives_fetch_failure_witness :
    (sampleTiktok.save failFetch "dir").err = some .networkError ∧
    (sampleTiktok.save failFetch "dir").files =
      [("dir/123.json", .jsonFile (.obj sampleTiktokDict))] :=
  claim6_json_survives_fetch_failure sampleTiktok failFetch "dir"
    sampleTiktokDict .networkError (by decide) rfl rfl

/-- Claim C10: `Tiktok.__eq__` reads only the `id` attribute of the right
operand, with no type check: any object exposing an equal `id` compares
equal (in particular two records differing in every other field), and an
object without an `id` attribute raises an `AttributeError` instead of
returning `False`. -/
theorem claim10_record_eq_by_id_only (t t' : Tiktok) (o : PyAttrs) :
    (∀ s, o.id = some s → Tiktok.eqPy t o = .ok (t.id == s)) ∧
    (o.id = none → Tiktok.eqPy t o = .error .attributeError) ∧
    Tiktok.eqPy t t'.attrs = .ok (t.id == t'.id) := by
  refine ⟨?_, ?_, ?_⟩
  · intro s hs; simp [Tiktok.eqPy, attrOrRaise, hs]
  · intro hs; simp [Tiktok.eqPy, attrOrRaise, hs]
  · simp [Tiktok.eqPy, Tiktok.attrs, attrOrRaise]

/-- Claim C10 at concrete inputs: two records sharing id "123" but
differing in every other field compare equal, and comparing a record
against a `Tag` (which has no `id` attribute) raises `AttributeError`. -/
theorem claim10_record_eq_by_id_only_witness :
    Tiktok.eqPy sampleTiktok sampleTiktokVariant.attrs = .ok true ∧
    Tiktok.eqPy sampleTiktok sampleTag.attrs = .error .attributeError := by
  constructor
  · have h := (claim10_record_eq_by_id_only sampleTiktok sampleTiktokVariant
      sampleTiktokVariant.attrs).1 "123" rfl
    simpa using h
  · exact (claim10_record_eq_by_id_only sampleTiktok sampleTiktok
      sampleTag.attrs).2.1 rfl

end TiktokCrawler
